import Mathlib

/-!
Shallow embedding of `src/vm.py` (a UTM VM controller driven over SSH plus
`xdotool`, with static `utmctl` helpers) and proofs about its behaviour.

Modelling conventions:
- The remote SSH command channel (`paramiko` `exec_command`) is an oracle
  `exec : String → CmdResult` giving, for each command string, the exit
  status and the captured stdout/stderr text. Channel-level timeouts are
  real-time behaviour and are not modelled.
- Local `subprocess.run` invocations are modelled by a `ProcOutcome`
  oracle value: either the invocation itself raised (timeout, missing
  binary) or it completed with a `ProcResult`.
- Python exceptions become an explicit `PyError` result. `VMError(msg)`
  is `PyError.vmError msg`; exceptions coming out of the SSH library when
  `exec_command` is called on a client that never connected are
  `PyError.sshException`; exceptions raised by `subprocess.run` itself are
  `PyError.procException`; `binascii` decode failures are
  `PyError.binasciiError`.
- Every remote operation returns, next to its result, the trace of
  command strings actually executed over the channel, so that claims about
  how many commands run can be stated.
-/

/-- Result of one completed command execution (remote or local): exit
status plus captured output text. -/
structure CmdResult where
  exitCode : Int
  stdout : String
  stderr : String
deriving DecidableEq

/-- Result of a completed local `subprocess.run` call. -/
structure ProcResult where
  returncode : Int
  stdout : String
  stderr : String
deriving DecidableEq

/-- Outcome of invoking `subprocess.run`: the call itself can raise
(timeout, binary not found) or complete with a result. -/
inductive ProcOutcome where
  | raised : ProcOutcome
  | completed : ProcResult → ProcOutcome
deriving DecidableEq

/-- Python exceptions that the code under `src/vm.py` can surface. -/
inductive PyError where
  | vmError : String → PyError
  | sshException : PyError
  | procException : PyError
  | binasciiError : PyError
deriving DecidableEq

/-- Whether an exception is an instance of the `VMError` class (the only
class the `except VMError` clause in `_get_display` catches). -/
def PyError.isVMError : PyError → Bool
  | .vmError _ => true
  | .sshException => false
  | .procException => false
  | .binasciiError => false

/-- State of a `paramiko.SSHClient` object: freshly constructed (its
`connect` call never succeeded) or with an active session. -/
inductive SSHState where
  | fresh : SSHState
  | active : SSHState
deriving DecidableEq

/-- A `paramiko.SSHClient` object. Host-key loading and policy are side
effects on external state and carry no data the claims need. -/
structure SSHClient where
  state : SSHState
deriving DecidableEq

/-- The mutable state of a `VM` controller instance: its `self.ssh`
field, which is `None` until `connect` is called and after `disconnect`.
The constructor fields (name, host, user, key path) are immutable
configuration and play no role in any claim. -/
structure VMState where
  ssh : Option SSHClient
deriving DecidableEq

/-- The character set Python `str.strip()` removes. -/
def pyWhitespace (c : Char) : Bool :=
  c = ' ' || c = '\t' || c = '\n' || c = '\r' || c = '\x0b' || c = '\x0c'

/-- Python `str.strip()`: drop leading and trailing whitespace. -/
def pyStrip (s : String) : String :=
  String.mk (((s.data.dropWhile pyWhitespace).reverse.dropWhile pyWhitespace).reverse)

/-- `p` is a leading segment of `l` (used to define substring search). -/
def leadsList (p l : List Char) : Bool :=
  match p, l with
  | [], _ => true
  | _ :: _, [] => false
  | a :: ps, b :: ls => a = b && leadsList ps ls

/-- `needle` occurs contiguously inside `hay`. -/
def occursList (needle hay : List Char) : Bool :=
  match hay with
  | [] => needle.isEmpty
  | _ :: t => leadsList needle hay || occursList needle t

/-- Python substring test `needle in hay`. -/
def occursIn (hay needle : String) : Bool :=
  occursList needle.data hay.data

/-- Python `str.lower()` (ASCII range, which is all the status strings
use). -/
def pyLower (s : String) : String :=
  String.mk (s.data.map Char.toLower)

/-- `VM.connect`: assigns a freshly constructed `SSHClient` to `self.ssh`
and then attempts the SSH connection. `ok` is the oracle for whether the
`paramiko` `connect` call succeeds; when it raises, the already-assigned
fresh client stays in `self.ssh`. Returns the new state and the raised
exception, if any. -/
def connect (vm : VMState) (ok : Bool) : VMState × Option PyError :=
  let vm1 : VMState := { vm with ssh := some { state := SSHState.fresh } }
  if ok then ({ vm1 with ssh := some { state := SSHState.active } }, none)
  else (vm1, some PyError.sshException)

/-- `VM.disconnect`: closes and clears `self.ssh` when set; no-op when
`None`. -/
def disconnect (vm : VMState) : VMState :=
  match vm.ssh with
  | none => vm
  | some _ => { vm with ssh := none }

/-- The message of the `VMError` raised by `_run` on a non-zero exit:
Python `f"Command failed (exit \x7bexit_code\x7d): \x7berr\x7d"`. -/
def cmdFailMsg (code : Int) (err : String) : String :=
  "Command failed (exit " ++ toString code ++ "): " ++ err

/-- `VM._run`: raises `VMError("Not connected")` when `self.ssh` is
`None`; on a client whose connection never succeeded, `exec_command`
raises an SSH-library exception; otherwise the command is executed over
the channel, a non-zero exit raises `VMError` carrying the exit code and
the stripped stderr, and a zero exit returns the decoded stdout. The
second component is the list of commands actually executed. -/
def VMRun (vm : VMState) (exec : String → CmdResult) (cmd : String) :
    Except PyError String × List String :=
  match vm.ssh with
  | none => (Except.error (PyError.vmError "Not connected"), [])
  | some c =>
    match c.state with
    | SSHState.fresh => (Except.error PyError.sshException, [])
    | SSHState.active =>
      let r := exec cmd
      if r.exitCode ≠ 0 then
        (Except.error (PyError.vmError (cmdFailMsg r.exitCode (pyStrip r.stderr))), [cmd])
      else
        (Except.ok r.stdout, [cmd])

/-- The geometry probe command `_get_display` issues for a candidate
display. -/
def probeCmd (d : String) : String :=
  "DISPLAY=" ++ d ++ " xdotool getdisplaygeometry"

/-- The fixed ordered candidate list `_get_display` walks. -/
def displayCandidates : List String := [":0", ":1"]

/-- The probe loop of `VM._get_display`: try each candidate in order,
catching exactly `VMError` (`except VMError: continue`); any other
exception propagates; when the list is exhausted return the default
`":0"`. -/
def getDisplayLoop (vm : VMState) (exec : String → CmdResult) :
    List String → Except PyError String × List String
  | [] => (Except.ok ":0", [])
  | d :: rest =>
    match VMRun vm exec (probeCmd d) with
    | (Except.ok _, t) => (Except.ok d, t)
    | (Except.error e, t) =>
      if e.isVMError then
        let r2 := getDisplayLoop vm exec rest
        (r2.1, t ++ r2.2)
      else (Except.error e, t)

/-- `VM._get_display`. -/
def getDisplay (vm : VMState) (exec : String → CmdResult) :
    Except PyError String × List String :=
  getDisplayLoop vm exec displayCandidates

/-- The single-quote character, used by `shlex.quote`. -/
def singleQuote : String := String.mk [Char.ofNat 39]

/-- Characters `shlex.quote` treats as safe (`re.ASCII` word characters
plus the punctuation at-sign, percent, plus, equals, colon, comma, dot,
slash and hyphen). -/
def shlexSafeChar (c : Char) : Bool :=
  c.isAlpha || c.isDigit || c = '_' || c = '@' || c = '%' || c = '+' ||
  c = '=' || c = ':' || c = ',' || c = '.' || c = '/' || c = '-'

/-- Python `shlex.quote`: empty strings become a pair of single quotes,
safe strings pass through, everything else is single-quoted with embedded
single quotes rewritten. -/
def shlexQuote (s : String) : String :=
  if s = "" then singleQuote ++ singleQuote
  else if s.data.all shlexSafeChar then s
  else
    singleQuote ++
      (s.replace singleQuote (singleQuote ++ "\"" ++ singleQuote ++ "\"" ++ singleQuote)) ++
    singleQuote

/-- The command string `move_mouse` runs. -/
def mouseCmd (disp : String) (x y : Int) : String :=
  "DISPLAY=" ++ disp ++ " xdotool mousemove " ++ toString x ++ " " ++ toString y

/-- `VM.move_mouse`: detect the display, then issue one mousemove. -/
def move_mouse (vm : VMState) (exec : String → CmdResult) (x y : Int) :
    Except PyError Unit × List String :=
  match getDisplay vm exec with
  | (Except.error e, t) => (Except.error e, t)
  | (Except.ok disp, t) =>
    match VMRun vm exec (mouseCmd disp x y) with
    | (Except.error e, t2) => (Except.error e, t ++ t2)
    | (Except.ok _, t2) => (Except.ok (), t ++ t2)

/-- The button-name-to-code lookup in `VM.click`:
`dict.get(button, "1")` over left=1, right=3, middle=2. -/
def buttonCode (button : String) : String :=
  if button = "left" then "1"
  else if button = "right" then "3"
  else if button = "middle" then "2"
  else "1"

/-- The command string one click iteration runs. -/
def clickCmd (disp btn : String) : String :=
  "DISPLAY=" ++ disp ++ " xdotool click " ++ btn

/-- The `for _ in range(clicks)` loop body of `VM.click`: one `_run` per
iteration; an exception aborts the loop. -/
def clickLoop (vm : VMState) (exec : String → CmdResult) (disp btn : String) :
    Nat → Except PyError Unit × List String
  | 0 => (Except.ok (), [])
  | Nat.succ n =>
    match VMRun vm exec (clickCmd disp btn) with
    | (Except.error e, t) => (Except.error e, t)
    | (Except.ok _, t) =>
      let r2 := clickLoop vm exec disp btn n
      (r2.1, t ++ r2.2)

/-- `VM.click`: detect the display, map the button name, then issue
`clicks` discrete click commands. -/
def click (vm : VMState) (exec : String → CmdResult) (button : String) (clicks : Nat) :
    Except PyError Unit × List String :=
  match getDisplay vm exec with
  | (Except.error e, t) => (Except.error e, t)
  | (Except.ok disp, t) =>
    let r2 := clickLoop vm exec disp (buttonCode button) clicks
    (r2.1, t ++ r2.2)

/-- The command string `type_text` runs. -/
def typeCmd (disp text : String) : String :=
  "DISPLAY=" ++ disp ++ " xdotool type --clearmodifiers " ++ shlexQuote text

/-- `VM.type_text`: detect the display, then type the shell-escaped text. -/
def type_text (vm : VMState) (exec : String → CmdResult) (text : String) :
    Except PyError Unit × List String :=
  match getDisplay vm exec with
  | (Except.error e, t) => (Except.error e, t)
  | (Except.ok disp, t) =>
    match VMRun vm exec (typeCmd disp text) with
    | (Except.error e, t2) => (Except.error e, t ++ t2)
    | (Except.ok _, t2) => (Except.ok (), t ++ t2)

/-- The command string `press_key` runs. -/
def keyCmd (disp key : String) : String :=
  "DISPLAY=" ++ disp ++ " xdotool key " ++ shlexQuote key

/-- `VM.press_key`: detect the display, then press the shell-escaped key. -/
def press_key (vm : VMState) (exec : String → CmdResult) (key : String) :
    Except PyError Unit × List String :=
  match getDisplay vm exec with
  | (Except.error e, t) => (Except.error e, t)
  | (Except.ok disp, t) =>
    match VMRun vm exec (keyCmd disp key) with
    | (Except.error e, t2) => (Except.error e, t ++ t2)
    | (Except.ok _, t2) => (Except.ok (), t ++ t2)

/-- Value of a standard base64 alphabet character. -/
def b64Index (c : Char) : Option Nat :=
  if c ≥ 'A' && c ≤ 'Z' then some (c.toNat - 65)
  else if c ≥ 'a' && c ≤ 'z' then some (c.toNat - 97 + 26)
  else if c ≥ '0' && c ≤ '9' then some (c.toNat - 48 + 52)
  else if c = '+' then some 62
  else if c = '/' then some 63
  else none

/-- The decode loop of CPython `binascii.a2b_base64` in its default
non-strict mode, which is what `base64.b64decode` calls with
`validate=False`. State: `quadPos` is the number of 6-bit values seen in
the current quad, `leftchar` the bits of the current quad not yet
emitted, `pads` the run of padding characters seen at the current quad
position, `acc` the bytes emitted so far (reversed). A data character
resets `pads` and emits one byte whenever the quad already held bits. A
`=` at quad position two or three counts toward completing the quad and,
once the quad is complete, ends decoding successfully, discarding the
rest of the input; a `=` earlier in a quad is skipped, as is any
character outside the alphabet. Input exhausted mid-quad is the
`binascii.Error` path (a data length of 1 mod 4, or 2 or 3 mod 4 without
the padding that completes the quad — "Incorrect padding"). -/
def b64Loop (quadPos leftchar pads : Nat) (acc : List Nat) :
    List Char → Option (List Nat)
  | [] => if quadPos = 0 then some acc.reverse else none
  | c :: rest =>
    if c = '=' then
      if quadPos ≥ 2 then
        if quadPos + (pads + 1) ≥ 4 then some acc.reverse
        else b64Loop quadPos leftchar (pads + 1) acc rest
      else b64Loop quadPos leftchar pads acc rest
    else
      match b64Index c with
      | none => b64Loop quadPos leftchar pads acc rest
      | some v =>
        match quadPos with
        | 0 => b64Loop 1 v 0 acc rest
        | 1 => b64Loop 2 (v % 16) 0 ((leftchar * 4 + v / 16) :: acc) rest
        | 2 => b64Loop 3 (v % 4) 0 ((leftchar * 16 + v / 4) :: acc) rest
        | _ => b64Loop 0 0 0 ((leftchar * 64 + v) :: acc) rest

/-- Model of `base64.b64decode` on text input with the default
`validate=False` (CPython 3.10+, which the source requires for its
union-type annotations): the text is first encoded as ASCII (non-ASCII
raises), then handed to the non-strict `binascii.a2b_base64` loop. -/
def b64decode (s : String) : Option (List Nat) :=
  if s.data.all (fun c => c.toNat < 128) then b64Loop 0 0 0 [] s.data
  else none

/-- The compound remote command `screenshot` builds for display `disp`
and millisecond timestamp `ts` (the Python triple-quoted f-string,
verbatim including its indentation). -/
def screenshotCmd (disp : String) (ts : Nat) : String :=
  "\n            rm -f /tmp/shot_" ++ toString ts ++ ".png\n            DISPLAY=" ++
  disp ++ " xdotool sync\n            sleep 0.1\n            DISPLAY=" ++ disp ++
  " scrot -o /tmp/shot_" ++ toString ts ++ ".png\n            base64 /tmp/shot_" ++
  toString ts ++ ".png\n            rm -f /tmp/shot_" ++ toString ts ++
  ".png\n        "

/-- `VM.screenshot`: detect the display, run the compound capture
command (`ts` is the oracle for `int(time.time() * 1000)`), then return
`base64.b64decode` of the stripped stdout as the PNG bytes. -/
def screenshot (vm : VMState) (exec : String → CmdResult) (ts : Nat) :
    Except PyError (List Nat) × List String :=
  match getDisplay vm exec with
  | (Except.error e, t) => (Except.error e, t)
  | (Except.ok disp, t) =>
    match VMRun vm exec (screenshotCmd disp ts) with
    | (Except.error e, t2) => (Except.error e, t ++ t2)
    | (Except.ok out, t2) =>
      match b64decode (pyStrip out) with
      | some bs => (Except.ok bs, t ++ t2)
      | none => (Except.error PyError.binasciiError, t ++ t2)

/-- Static `VM.get_ip`: runs `utmctl ip-address <vm_name>`; a raised
`subprocess` exception propagates; a non-zero exit raises
`VMError(f"Failed to get VM IP: \x7bresult.stderr\x7d")`; otherwise the
stripped stdout is returned. -/
def get_ip (outcome : ProcOutcome) : Except PyError String :=
  match outcome with
  | ProcOutcome.raised => Except.error PyError.procException
  | ProcOutcome.completed r =>
    if r.returncode ≠ 0 then
      Except.error (PyError.vmError ("Failed to get VM IP: " ++ r.stderr))
    else Except.ok (pyStrip r.stdout)

/-- Static `VM.is_running`: runs `utmctl status <vm_name>` without
`check=True`; a raised `subprocess` exception propagates; otherwise the
result is whether `"started"` occurs in the lower-cased stdout,
regardless of the exit code. -/
def is_running (outcome : ProcOutcome) : Except PyError Bool :=
  match outcome with
  | ProcOutcome.raised => Except.error PyError.procException
  | ProcOutcome.completed r => Except.ok (occursIn (pyLower r.stdout) "started")

/-- A controller on which `connect` was never called (or `disconnect`
ran last): `self.ssh` is `None`. -/
def vmNone : VMState := { ssh := none }

/-- A controller left behind by a `connect` call that raised: `self.ssh`
holds a client whose connection never succeeded. -/
def vmFresh : VMState := { ssh := some { state := SSHState.fresh } }

/-- A controller whose `connect` succeeded. -/
def vmConn : VMState := { ssh := some { state := SSHState.active } }

/-- A stubbed channel on which every command exits zero with empty
output. -/
def execZero : String → CmdResult := fun _ => { exitCode := 0, stdout := "", stderr := "" }

/-- A stubbed channel on which every command fails with exit 1 and
stderr `"permission denied"`. -/
def execPermDenied : String → CmdResult :=
  fun _ => { exitCode := 1, stdout := "", stderr := "permission denied" }

/-- A stubbed channel on which every command exits zero and prints a
fixed base64 payload. -/
def execB64 : String → CmdResult :=
  fun _ => { exitCode := 0, stdout := "aGVsbG8=\n", stderr := "" }

theorem VMRun_conn (exec : String → CmdResult) (cmd : String) :
    VMRun vmConn exec cmd =
      if (exec cmd).exitCode ≠ 0 then
        (Except.error (PyError.vmError (cmdFailMsg (exec cmd).exitCode (pyStrip (exec cmd).stderr))),
          [cmd])
      else (Except.ok (exec cmd).stdout, [cmd]) := rfl

theorem getDisplay_first_ok (exec : String → CmdResult)
    (h : (exec (probeCmd ":0")).exitCode = 0) :
    getDisplay vmConn exec = (Except.ok ":0", [probeCmd ":0"]) := by
  simp [getDisplay, displayCandidates, getDisplayLoop, VMRun_conn, h]

theorem getDisplay_second_ok (exec : String → CmdResult)
    (h0 : (exec (probeCmd ":0")).exitCode ≠ 0)
    (h1 : (exec (probeCmd ":1")).exitCode = 0) :
    getDisplay vmConn exec = (Except.ok ":1", [probeCmd ":0", probeCmd ":1"]) := by
  simp [getDisplay, displayCandidates, getDisplayLoop, VMRun_conn, h0, h1, PyError.isVMError]

theorem getDisplay_all_fail (exec : String → CmdResult)
    (h0 : (exec (probeCmd ":0")).exitCode ≠ 0)
    (h1 : (exec (probeCmd ":1")).exitCode ≠ 0) :
    getDisplay vmConn exec = (Except.ok ":0", [probeCmd ":0", probeCmd ":1"]) := by
  simp [getDisplay, displayCandidates, getDisplayLoop, VMRun_conn, h0, h1, PyError.isVMError]

theorem clickLoop_all_ok (exec : String → CmdResult) (disp btn : String)
    (h : ∀ c, (exec c).exitCode = 0) (n : Nat) :
    clickLoop vmConn exec disp btn n =
      (Except.ok (), List.replicate n (clickCmd disp btn)) := by
  induction n with
  | zero => simp [clickLoop]
  | succ n ih => simp [clickLoop, VMRun_conn, h, ih, List.replicate_succ]

/-- C8: `disconnect` is idempotent: running it twice gives the same
controller state as running it once, it always leaves the session field
cleared, and running it on an already-disconnected controller is a
no-op. -/
theorem c8_disconnect_idempotent (vm : VMState) :
    disconnect (disconnect vm) = disconnect vm ∧
    (disconnect vm).ssh = none ∧
    disconnect vmNone = vmNone := by
  obtain ⟨s⟩ := vm
  cases s <;> simp [disconnect, vmNone]

/-- C9: on a disconnected controller `_get_display` swallows the
`VMError("Not connected")` raised by every geometry probe exactly like an
ordinary probe failure: it returns the default `":0"` without executing
any remote command and without raising, and the not-connected error
reaches the caller only from the action command that follows display
detection. -/
theorem c9_get_display_swallows_not_connected (exec : String → CmdResult) (x y : Int) :
    getDisplay vmNone exec = (Except.ok ":0", []) ∧
    (move_mouse vmNone exec x y).1 = Except.error (PyError.vmError "Not connected") ∧
    (move_mouse vmNone exec x y).2 = [] :=
  ⟨rfl, rfl, rfl⟩

/-- C10: `connect` is not atomic on failure: it stores a fresh SSH
client in the session field before attempting the connection, so a
failed attempt leaves the field holding that fresh client (non-`None`)
while the exception propagates; a successful attempt leaves an active
client. -/
theorem c10_connect_not_atomic (vm : VMState) :
    (connect vm false).1.ssh = some { state := SSHState.fresh } ∧
    (connect vm false).1.ssh ≠ none ∧
    (connect vm false).2 = some PyError.sshException ∧
    (connect vm true).1.ssh = some { state := SSHState.active } := by
  refine ⟨rfl, ?_, rfl, rfl⟩
  simp [connect]

/-- C1 counterexample: when the local status-query process invocation
itself raises (for example a timeout or a missing `utmctl` binary),
`is_running` does not return `false` — the exception propagates, contrary
to the claim that it returns false on any exception from invoking the
process. -/
theorem c1_counterexample :
    is_running ProcOutcome.raised ≠ Except.ok false ∧
    is_running ProcOutcome.raised = Except.error PyError.procException := by
  constructor
  · simp [is_running]
  · rfl

/-- C1 amended: whenever the status-query process invocation completes
(any exit code, zero or not), `is_running` returns true exactly when the
lower-cased captured stdout contains the substring `"started"`, and
returns false without raising when it does not; an exception raised by
the process invocation itself propagates instead of yielding false. -/
theorem c1_is_running (r : ProcResult) :
    (is_running (ProcOutcome.completed r) = Except.ok true ↔
      occursIn (pyLower r.stdout) "started" = true) ∧
    (occursIn (pyLower r.stdout) "started" = false →
      is_running (ProcOutcome.completed r) = Except.ok false) ∧
    is_running ProcOutcome.raised = Except.error PyError.procException := by
  refine ⟨?_, ?_, rfl⟩
  · simp [is_running]
  · intro h
    simp [is_running, h]

/-- C1 witness: a completed query whose stdout says `"VM has Started"`
despite exit code 1 yields true; a completed query with stdout
`"stopped"` yields false. -/
theorem c1_witness :
    is_running (ProcOutcome.completed { returncode := 1, stdout := "VM has Started", stderr := "" }) =
      Except.ok true ∧
    is_running (ProcOutcome.completed { returncode := 0, stdout := "stopped", stderr := "" }) =
      Except.ok false :=
  ⟨(c1_is_running { returncode := 1, stdout := "VM has Started", stderr := "" }).1.mpr (by decide),
   (c1_is_running { returncode := 0, stdout := "stopped", stderr := "" }).2.1 (by decide)⟩

/-- C2 counterexample: two concrete violations of the claim. `click`
with `clicks = 0` on a never-connected controller returns silently (the
display probes swallow the not-connected error and the loop body never
runs), and after a `connect` attempt that raised, `move_mouse` fails
with the SSH library exception rather than the not-connected error. -/
theorem c2_counterexample :
    (click vmNone execZero "left" 0).1 = Except.ok () ∧
    (move_mouse (connect vmNone false).1 execZero 10 20).1 =
      Except.error PyError.sshException :=
  ⟨rfl, rfl⟩

/-- C2 amended: on a controller whose session field is `None` (never
connected, or disconnected), every remote action that reaches an actual
command execution raises the not-connected `VMError` — except `click`
with zero clicks, which is a silent no-op; on a controller left behind
by a failed `connect`, the session field holds an unconnected client and
every remote action instead fails with the SSH library exception, never
the not-connected error and never silently. -/
theorem c2_not_connected (exec : String → CmdResult) (x y : Int)
    (txt k b : String) (n ts : Nat) :
    (move_mouse vmNone exec x y).1 = Except.error (PyError.vmError "Not connected") ∧
    (type_text vmNone exec txt).1 = Except.error (PyError.vmError "Not connected") ∧
    (press_key vmNone exec k).1 = Except.error (PyError.vmError "Not connected") ∧
    (screenshot vmNone exec ts).1 = Except.error (PyError.vmError "Not connected") ∧
    (click vmNone exec b (n + 1)).1 = Except.error (PyError.vmError "Not connected") ∧
    (click vmNone exec b 0).1 = Except.ok () ∧
    (move_mouse vmFresh exec x y).1 = Except.error PyError.sshException ∧
    (type_text vmFresh exec txt).1 = Except.error PyError.sshException ∧
    (press_key vmFresh exec k).1 = Except.error PyError.sshException ∧
    (screenshot vmFresh exec ts).1 = Except.error PyError.sshException ∧
    (click vmFresh exec b n).1 = Except.error PyError.sshException :=
  ⟨rfl, rfl, rfl, rfl, rfl, rfl, rfl, rfl, rfl, rfl, rfl⟩

/-- C4: on a connected controller, for every outcome of the geometry
probes, `_get_display` returns (without raising) the first candidate in
the fixed order whose probe exits zero, and the default `":0"` when both
probes fail. -/
theorem c4_get_display (exec : String → CmdResult) :
    (getDisplay vmConn exec).1 =
      Except.ok (if (exec (probeCmd ":0")).exitCode = 0 then ":0"
        else if (exec (probeCmd ":1")).exitCode = 0 then ":1" else ":0") := by
  by_cases h0 : (exec (probeCmd ":0")).exitCode = 0
  · rw [getDisplay_first_ok exec h0]
    simp [h0]
  · by_cases h1 : (exec (probeCmd ":1")).exitCode = 0
    · rw [getDisplay_second_ok exec h0 h1]
      simp [h0, h1]
    · rw [getDisplay_all_fail exec h0 h1]
      simp [h0, h1]

/-- C6: `get_ip` returns the stdout stripped of surrounding whitespace
when the local process exits zero, and raises a `VMError` whose message
is the failure prefix followed by the captured stderr text when it exits
non-zero. -/
theorem c6_get_ip (r : ProcResult) :
    (r.returncode = 0 → get_ip (ProcOutcome.completed r) = Except.ok (pyStrip r.stdout)) ∧
    (r.returncode ≠ 0 → get_ip (ProcOutcome.completed r) =
      Except.error (PyError.vmError ("Failed to get VM IP: " ++ r.stderr))) := by
  constructor <;> intro h <;> simp [get_ip, h]

/-- C6 witness: a zero exit with stdout `"  10.0.0.7\n"` yields
`"10.0.0.7"`; exit 1 with stderr `"boom"` yields the `VMError` whose
message ends in `"boom"`. -/
theorem c6_witness :
    get_ip (ProcOutcome.completed { returncode := 0, stdout := "  10.0.0.7\n", stderr := "" }) =
      Except.ok "10.0.0.7" ∧
    get_ip (ProcOutcome.completed { returncode := 1, stdout := "", stderr := "boom" }) =
      Except.error (PyError.vmError "Failed to get VM IP: boom") :=
  ⟨(c6_get_ip { returncode := 0, stdout := "  10.0.0.7\n", stderr := "" }).1 rfl,
   (c6_get_ip { returncode := 1, stdout := "", stderr := "boom" }).2 (by decide)⟩

/-- C3: when the remote commands succeed, `click` issues exactly
`clicks` discrete click commands in sequence (one command execution per
click, after the single display probe), using code `"1"` for `"left"`,
`"3"` for `"right"`, `"2"` for `"middle"`, and `"1"` for any other
button name without raising. -/
theorem c3_click (exec : String → CmdResult) (b : String) (n : Nat)
    (h : ∀ c, (exec c).exitCode = 0) :
    (click vmConn exec b n).1 = Except.ok () ∧
    (click vmConn exec b n).2 =
      probeCmd ":0" :: List.replicate n (clickCmd ":0" (buttonCode b)) ∧
    buttonCode "left" = "1" ∧ buttonCode "right" = "3" ∧ buttonCode "middle" = "2" ∧
    (b ≠ "left" → b ≠ "right" → b ≠ "middle" → buttonCode b = "1") := by
  have hd := getDisplay_first_ok exec (h (probeCmd ":0"))
  have hl := clickLoop_all_ok exec ":0" (buttonCode b) h n
  refine ⟨?_, ?_, rfl, rfl, rfl, ?_⟩
  · simp [click, hd, hl]
  · simp [click, hd, hl]
  · intro h1 h2 h3
    simp [buttonCode, h1, h2, h3]

/-- C3 witness: three clicks of the unrecognized button `"wheel"` on an
all-succeeding channel produce exactly three click commands with code
`"1"`. -/
theorem c3_witness :
    (click vmConn execZero "wheel" 3).1 = Except.ok () ∧
    (click vmConn execZero "wheel" 3).2 =
      probeCmd ":0" :: List.replicate 3 (clickCmd ":0" (buttonCode "wheel")) ∧
    buttonCode "left" = "1" ∧ buttonCode "right" = "3" ∧ buttonCode "middle" = "2" ∧
    ("wheel" ≠ "left" → "wheel" ≠ "right" → "wheel" ≠ "middle" → buttonCode "wheel" = "1") :=
  c3_click execZero "wheel" 3 (fun _ => rfl)

/-- C5: when the remote commands succeed and the capture command prints
a payload whose stripped text base64-decodes to `bs`, `screenshot`
returns exactly those bytes. -/
theorem c5_screenshot (exec : String → CmdResult) (ts : Nat) (bs : List Nat)
    (h : ∀ c, (exec c).exitCode = 0)
    (hd : b64decode (pyStrip (exec (screenshotCmd ":0" ts)).stdout) = some bs) :
    (screenshot vmConn exec ts).1 = Except.ok bs := by
  have hg := getDisplay_first_ok exec (h (probeCmd ":0"))
  simp [screenshot, hg, VMRun_conn, h, hd]

/-- C5 witness: a stubbed channel printing the fixed payload
`"aGVsbG8=\n"` yields byte-for-byte the base64 decoding, the five bytes
of `"hello"`. -/
theorem c5_witness :
    (screenshot vmConn execB64 0).1 = Except.ok [104, 101, 108, 108, 111] :=
  c5_screenshot execB64 0 [104, 101, 108, 108, 111] (fun _ => rfl) (by decide)

/-- C7: with every remote command failing with exit code 1 and stderr
`"permission denied"`, `move_mouse 10 20` raises a `VMError` whose
message contains both the exit code and `"permission denied"`; in
general `_run` returns the decoded stdout on a zero exit and raises a
`VMError` carrying the exit code and the stripped captured stderr on a
non-zero exit. -/
theorem c7_command_failure (exec exec2 : String → CmdResult) (cmd : String)
    (h1 : ∀ c, (exec c).exitCode = 1)
    (h2 : ∀ c, (exec c).stderr = "permission denied") :
    ((move_mouse vmConn exec 10 20).1 =
        Except.error (PyError.vmError "Command failed (exit 1): permission denied") ∧
      occursIn "Command failed (exit 1): permission denied" (toString (1 : Int)) = true ∧
      occursIn "Command failed (exit 1): permission denied" "permission denied" = true) ∧
    ((exec2 cmd).exitCode = 0 → (VMRun vmConn exec2 cmd).1 = Except.ok (exec2 cmd).stdout) ∧
    ((exec2 cmd).exitCode ≠ 0 → (VMRun vmConn exec2 cmd).1 =
      Except.error (PyError.vmError (cmdFailMsg (exec2 cmd).exitCode (pyStrip (exec2 cmd).stderr)))) := by
  have h0 : (exec (probeCmd ":0")).exitCode ≠ 0 := by rw [h1]; decide
  have h01 : (exec (probeCmd ":1")).exitCode ≠ 0 := by rw [h1]; decide
  have hg := getDisplay_all_fail exec h0 h01
  refine ⟨⟨?_, by decide, by decide⟩, ?_, ?_⟩
  · simp [move_mouse, hg, VMRun_conn, h1, h2]
    decide
  · intro hz
    simp [VMRun_conn, hz]
  · intro hz
    simp [VMRun_conn, hz]

/-- C7 witness: the end-to-end scenario at the stubbed permission-denied
channel. -/
theorem c7_witness :
    (move_mouse vmConn execPermDenied 10 20).1 =
      Except.error (PyError.vmError "Command failed (exit 1): permission denied") :=
  (c7_command_failure execPermDenied execZero "true" (fun _ => rfl) (fun _ => rfl)).1.1
